import Mathlib

/-!
# Cutter `Configuration` (src/utils/Configuration.cpp)

A shallow embedding of the settings and theme manager: the persisted settings
store, the colour palettes of the three themes, and the synchronisation of the
`asm.*` options with the analysis engine.  The object's mutable state (the
settings store `s`, the logo, the application style sheet, the engine behind
`Core()`) is passed explicitly; every member function becomes a function on
`Configuration`.
-/

namespace Cutter

/-! ## Toolkit values -/

/-- A toolkit colour: `QColor()` is the invalid colour, otherwise red, green and
blue components. -/
inductive QColor where
  | invalid
  | rgb (r g b : Int)
  deriving DecidableEq, Repr

/-- The constructor `QColor(r, g, b)`: components outside `0..255` leave the
colour invalid. -/
def QColor.fromRgb (r g b : Int) : QColor :=
  if 0 ≤ r ∧ r ≤ 255 ∧ 0 ≤ g ∧ g ≤ 255 ∧ 0 ≤ b ∧ b ≤ 255 then .rgb r g b else .invalid

/-- A font descriptor `QFont(family, pointSize)`. -/
structure QFont where
  family : String
  pointSize : Int
  deriving DecidableEq, Repr

/-- The kinds of `QVariant` this file reads and writes. -/
inductive QVariant where
  | invalid
  | bool (b : Bool)
  | int (n : Int)
  | str (s : String)
  | color (c : QColor)
  | font (f : QFont)
  deriving DecidableEq, Repr

/-- The `QVariant::Type` tags the option accessors dispatch on. -/
inductive QVariantType where
  | Invalid | Bool | Int | String | Color | Font
  deriving DecidableEq, Repr

/-- The tag of a variant: `QVariant::type()`. -/
def QVariant.type : QVariant → QVariantType
  | .invalid => .Invalid
  | .bool _ => .Bool
  | .int _ => .Int
  | .str _ => .String
  | .color _ => .Color
  | .font _ => .Font

/-- What the code takes from outside this file: the toolkit's text formats for
numbers, colours and fonts (`QString::toInt`, `QColor::name`,
`QColor::setNamedColor`, `QFont::toString`, `QFont::fromString`, the
application's default font `QFont()`), the dark
style sheet resource `:qdarkstyle/style.qss` (`none` when the resource is
missing), the target platform (`Q_OS_MACX`), and the theme name the header
falls back to when none is persisted. -/
structure Env where
  parseInt : String → Int
  colorName : QColor → String
  namedColor : String → QColor
  fontToString : QFont → String
  fontFromString : String → QFont
  defaultFont : QFont
  darkStyleSheet : Option String
  macx : Bool
  fallbackTheme : String

/-- The conversion `QVariant::toBool()`: a bool is itself, an int is true when
non-zero, a string is true unless its lower-case content is empty, `0` or
`false`; everything else is false. -/
def QVariant.toBool : QVariant → Bool
  | .bool b => b
  | .int n => decide (n ≠ 0)
  | .str s =>
    let l := s.map Char.toLower
    !(decide (l = "") || decide (l = "0") || decide (l = "false"))
  | _ => false

/-- The conversion `QVariant::toInt()`; zero for kinds that do not convert. -/
def QVariant.toInt (env : Env) : QVariant → Int
  | .bool b => if b then 1 else 0
  | .int n => n
  | .str s => env.parseInt s
  | _ => 0

/-- The conversion `QVariant::toString()`; the null string for an invalid
variant. -/
def QVariant.toString (env : Env) : QVariant → String
  | .invalid => ""
  | .bool b => if b then "true" else "false"
  | .int n => ToString.toString n
  | .str s => s
  | .color c => env.colorName c
  | .font f => env.fontToString f

/-- The conversion `QVariant::value<QColor>()`; the invalid colour for kinds
that do not convert. -/
def QVariant.toColor (env : Env) : QVariant → QColor
  | .color c => c
  | .str s => env.namedColor s
  | _ => .invalid

/-- The conversion `QVariant::value<QFont>()`; the default-constructed font for
kinds that do not convert. -/
def QVariant.toFont (env : Env) : QVariant → QFont
  | .font f => f
  | .str s => env.fontFromString s
  | _ => env.defaultFont

/-! ## The settings store `QSettings s` -/

/-- The persisted settings: at most one value per key. -/
structure QSettings where
  get : String → Option QVariant

/-- The call `s.contains(key)`. -/
def QSettings.contains (s : QSettings) (key : String) : Bool :=
  (s.get key).isSome

/-- The call `s.value(key)`: an invalid variant when the key is absent. -/
def QSettings.value (s : QSettings) (key : String) : QVariant :=
  (s.get key).getD .invalid

/-- The call `s.value(key, defaultValue)`. -/
def QSettings.valueD (s : QSettings) (key : String) (dflt : QVariant) : QVariant :=
  (s.get key).getD dflt

/-- The call `s.setValue(key, value)`. -/
def QSettings.setValue (s : QSettings) (key : String) (v : QVariant) : QSettings :=
  ⟨fun k => if k = key then some v else s.get k⟩

/-- The call `s.clear()`, which with the removal of the backing file leaves no
entry at all. -/
def QSettings.clear (_s : QSettings) : QSettings :=
  ⟨fun _ => none⟩

/-! ## The engine behind `Core()` -/

/-- The engine's colour table as the JSON query reports it: each key with its
array of numbers, one entry per key of the JSON object. -/
abbrev ColorTable := List (String × List Int)

/-- The calls this file makes on the engine, recorded in order. -/
inductive CoreCall where
  | cmd (c : String)
  | cmdj (c : String)
  | setSettings
  | setConfig (key : String) (v : QVariant)
  | getConfig (key : String)
  | getConfigb (key : String)
  | getConfigi (key : String)
  deriving DecidableEq, Repr

/-- Modelled from the spec: the analysis engine (`CutterCore`, not part of this
file).  It keeps a typed key-value configuration and a colour table, accepts
string commands and the typed configuration get and set; how a command and
`setSettings` change its configuration and colours is the engine's own
business and is carried here as `onCmd` and `onSetSettings`. -/
structure Core where
  config : String → QVariant
  colors : ColorTable
  calls : List CoreCall
  onCmd : String → (String → QVariant) × ColorTable → (String → QVariant) × ColorTable
  onSetSettings : (String → QVariant) → (String → QVariant)

/-- Modelled from the spec: `Core()->cmd(c)` runs a string command. -/
def Core.cmd (core : Core) (c : String) : Core :=
  let r := core.onCmd c (core.config, core.colors)
  { core with config := r.1, colors := r.2, calls := core.calls ++ [.cmd c] }

/-- Modelled from the spec: `Core()->cmdj(c)` runs a query with a JSON answer;
the query `ecj` answers the current full colour table. -/
def Core.cmdj (core : Core) (c : String) : ColorTable × Core :=
  (if c = "ecj" then core.colors else [], { core with calls := core.calls ++ [.cmdj c] })

/-- Modelled from the spec: `Core()->setSettings()` re-applies the engine's own
start-up settings. -/
def Core.setSettings (core : Core) : Core :=
  { core with config := core.onSetSettings core.config, calls := core.calls ++ [.setSettings] }

/-- Modelled from the spec: `Core()->setConfig(key, value)` writes the value
under the key. -/
def Core.setConfig (core : Core) (key : String) (v : QVariant) : Core :=
  { core with
    config := fun k => if k = key then v else core.config k
    calls := core.calls ++ [.setConfig key v] }

/-- Modelled from the spec: `Core()->getConfig(key)`, the string query: the
string last written under the key, empty when the entry is not a string. -/
def Core.getConfig (core : Core) (key : String) : String × Core :=
  (match core.config key with
    | .str s => s
    | _ => "",
   { core with calls := core.calls ++ [.getConfig key] })

/-- Modelled from the spec: `Core()->getConfigb(key)`, the boolean query: the
bool last written under the key, false when the entry is not a bool. -/
def Core.getConfigb (core : Core) (key : String) : Bool × Core :=
  (match core.config key with
    | .bool b => b
    | _ => false,
   { core with calls := core.calls ++ [.getConfigb key] })

/-- Modelled from the spec: `Core()->getConfigi(key)`, the integer query: the
int last written under the key, zero when the entry is not an int. -/
def Core.getConfigi (core : Core) (key : String) : Int × Core :=
  (match core.config key with
    | .int n => n
    | _ => 0,
   { core with calls := core.calls ++ [.getConfigi key] })

/-! ## The configuration object -/

/-- The signals the object emits. -/
inductive Signal where
  | fontsUpdated
  | colorsUpdated
  deriving DecidableEq, Repr

/-- The state `Configuration` works on: its members `s` and `logoFile`, the
application's style sheet, the warnings logged, the signals emitted, the
engine, and the environment. -/
structure Configuration where
  s : QSettings
  logoFile : String
  styleSheet : String
  warnings : List String
  signals : List Signal
  core : Core
  env : Env

/-- All `asm.*` options saved as settings, with their default values.  The
source keeps them in a hash, whose iteration order is not fixed; here the two
loops over the registry run in the order written. -/
def asmOptions : List (String × QVariant) :=
  [ ("asm.esil",           .bool false),
    ("asm.pseudo",         .bool false),
    ("asm.offset",         .bool true),
    ("asm.describe",       .bool false),
    ("asm.stackptr",       .bool false),
    ("asm.slow",           .bool true),
    ("asm.lines",          .bool true),
    ("asm.lines.fcn",      .bool true),
    ("asm.flags.offset",   .bool false),
    ("asm.emu",            .bool false),
    ("asm.cmt.right",      .bool true),
    ("asm.var.summary",    .bool false),
    ("asm.bytes",          .bool false),
    ("asm.size",           .bool false),
    ("asm.bytespace",      .bool false),
    ("asm.lbytes",         .bool true),
    ("asm.nbytes",         .int 10),
    ("asm.syntax",         .str "intel"),
    ("asm.ucase",          .bool false),
    ("asm.bbline",         .bool false),
    ("asm.capitalize",     .bool false),
    ("asm.var.sub",        .bool true),
    ("asm.var.subonly",    .bool true),
    ("asm.tabs",           .int 5) ]

/-- The member `setDirProjects`. -/
def setDirProjects (c : Configuration) (dir : String) : Configuration :=
  { c with s := c.s.setValue "dir.projects" (.str dir) }

/-- The member `getDirProjects`: an unset directory is seeded from the engine
and persisted. -/
def getDirProjects (c : Configuration) : String × Configuration :=
  let projectsDir := (c.s.value "dir.projects").toString c.env
  if projectsDir = "" then
    let r := c.core.getConfig "dir.projects"
    (r.1, setDirProjects { c with core := r.2 } r.1)
  else
    (projectsDir, c)

/-- The member `setColor`: sets the local colour `name`. -/
def setColor (c : Configuration) (name : String) (color : QColor) : Configuration :=
  { c with s := c.s.setValue ("colors." ++ name) (.color color) }

/-- The member `getColor`: the colour stored for `name`, or the one stored for
`other` when there is none. -/
def getColor (c : Configuration) (name : String) : QColor :=
  if c.s.contains ("colors." ++ name) then
    (c.s.value ("colors." ++ name)).toColor c.env
  else
    (c.s.value "colors.other").toColor c.env

/-- The member `loadDefaultTheme`. -/
def loadDefaultTheme (c : Configuration) : Configuration :=
  let c := { c with styleSheet := "" }
  let c := { c with logoFile := ":/img/cutter_plain.svg" }
  let c := setColor c "gui.cflow" (QColor.fromRgb 0 0 0)
  let c := setColor c "gui.dataoffset" (QColor.fromRgb 0 0 0)
  let c := setColor c "gui.border" (QColor.fromRgb 0 0 0)
  let c := setColor c "highlight" (QColor.fromRgb 210 210 255)
  let c := setColor c "highlightWord" (QColor.fromRgb 210 210 255)
  let c := setColor c "gui.background" (QColor.fromRgb 255 255 255)
  let c := setColor c "gui.disass_selected" (QColor.fromRgb 255 255 255)
  let c := setColor c "gui.alt_background" (QColor.fromRgb 245 250 255)
  let c := setColor c "gui.imports" (QColor.fromRgb 50 140 255)
  let c := setColor c "gui.main" (QColor.fromRgb 0 128 0)
  let c := setColor c "gui.navbar.err" (QColor.fromRgb 255 0 0)
  let c := setColor c "gui.navbar.code" (QColor.fromRgb 104 229 69)
  let c := setColor c "gui.navbar.str" (QColor.fromRgb 69 104 229)
  let c := setColor c "gui.navbar.sym" (QColor.fromRgb 229 150 69)
  setColor c "gui.navbar.empty" (QColor.fromRgb 100 100 100)

/-- The title-bar appendix added to the dark style sheet under `Q_OS_MACX`. -/
def macxTitleStyle : String :=
  "QDockWidget::title" ++ "\x7b" ++ "    background-color: #31363b;" ++
  "    text-align: center;" ++ "    height: 12px;" ++ "\x7d"

/-- The member `loadBaseDark`: the dark style sheet (a warning when the
resource is missing), the white logo and the colours both dark themes share. -/
def loadBaseDark (c : Configuration) : Configuration :=
  let c :=
    match c.env.darkStyleSheet with
    | none => { c with warnings := c.warnings ++ ["Can't find dark theme stylesheet."] }
    | some stylesheet =>
      let stylesheet := if c.env.macx then stylesheet ++ macxTitleStyle else stylesheet
      { c with styleSheet := stylesheet }
  let c := { c with logoFile := ":/img/cutter_white_plain.svg" }
  let c := setColor c "gui.cflow" (QColor.fromRgb 255 255 255)
  let c := setColor c "gui.dataoffset" (QColor.fromRgb 255 255 255)
  let c := setColor c "gui.imports" (QColor.fromRgb 50 140 255)
  let c := setColor c "gui.main" (QColor.fromRgb 0 128 0)
  let c := setColor c "gui.navbar.err" (QColor.fromRgb 255 0 0)
  let c := setColor c "gui.navbar.code" (QColor.fromRgb 104 229 69)
  let c := setColor c "gui.navbar.str" (QColor.fromRgb 69 104 229)
  let c := setColor c "gui.navbar.sym" (QColor.fromRgb 229 150 69)
  setColor c "gui.navbar.empty" (QColor.fromRgb 100 100 100)

/-- The member `loadDarkTheme`. -/
def loadDarkTheme (c : Configuration) : Configuration :=
  let c := loadBaseDark c
  let c := setColor c "gui.border" (QColor.fromRgb 255 255 255)
  let c := setColor c "gui.background" (QColor.fromRgb 36 66 79)
  let c := setColor c "gui.alt_background" (QColor.fromRgb 58 100 128)
  let c := setColor c "gui.disass_selected" (QColor.fromRgb 36 66 79)
  let c := setColor c "highlight" (QColor.fromRgb 64 115 115)
  setColor c "highlightWord" (QColor.fromRgb 64 115 115)

/-- The member `loadDarkGreyTheme`. -/
def loadDarkGreyTheme (c : Configuration) : Configuration :=
  let c := loadBaseDark c
  let c := setColor c "gui.border" (QColor.fromRgb 100 100 100)
  let c := setColor c "gui.background" (QColor.fromRgb 37 40 43)
  let c := setColor c "gui.alt_background" (QColor.fromRgb 28 31 36)
  let c := setColor c "gui.disass_selected" (QColor.fromRgb 44 53 54)
  let c := setColor c "highlight" (QColor.fromRgb 21 29 29)
  setColor c "highlightWord" (QColor.fromRgb 100 100 100)

/-- The member `getFont`: the persisted font, Inconsolata 12 when none is. -/
def getFont (c : Configuration) : QFont :=
  (c.s.valueD "font" (.font ⟨"Inconsolata", 12⟩)).toFont c.env

/-- The member `setFont`. -/
def setFont (c : Configuration) (font : QFont) : Configuration :=
  let c := { c with s := c.s.setValue "font" (.font font) }
  { c with signals := c.signals ++ [.fontsUpdated] }

/-- The member `setDarkTheme`: persists the id, loads the palette the id
selects, announces the change. -/
def setDarkTheme (c : Configuration) (theme : Int) : Configuration :=
  let c := { c with s := c.s.setValue "dark" (.int theme) }
  let c :=
    if theme = 1 then loadDarkTheme c
    else if theme = 2 then loadDarkGreyTheme c
    else loadDefaultTheme c
  { c with signals := c.signals ++ [.colorsUpdated] }

/-- The member `getLogoFile`. -/
def getLogoFile (c : Configuration) : String :=
  c.logoFile

/-- The test `key.contains("graph")` on the characters of both strings. -/
def containsChars (sub : List Char) : List Char → Bool
  | [] => sub.isEmpty
  | ch :: rest => sub.isPrefixOf (ch :: rest) || containsChars sub rest

/-- The call `QString::contains(sub)`, case sensitive. -/
def strContains (key sub : String) : Bool :=
  containsChars sub.data key.data

/-- The call `QJsonValue::toInt()` on a number: zero when it does not fit an
`int`. -/
def jsonToInt (n : Int) : Int :=
  if -2147483648 ≤ n ∧ n ≤ 2147483647 then n else 0

/-- The element `rgb[i].toInt()` of a JSON array: zero past the end. -/
def jsonAt (rgb : List Int) (i : Nat) : Int :=
  match rgb.get? i with
  | some n => jsonToInt n
  | none => 0

/-- The loop of `setColorTheme` over the engine's colour table: every key
containing `graph` is copied into the local colours. -/
def mirrorGraphColors (s : QSettings) : ColorTable → QSettings
  | [] => s
  | (key, rgb) :: rest =>
    if !strContains key "graph" then
      mirrorGraphColors s rest
    else
      mirrorGraphColors
        (s.setValue ("colors." ++ key)
          (.color (QColor.fromRgb (jsonAt rgb 0) (jsonAt rgb 1) (jsonAt rgb 2))))
        rest

/-- The member `setColorTheme`. -/
def setColorTheme (c : Configuration) (theme : String) : Configuration :=
  let c :=
    if theme = "default" then
      let c := { c with core := c.core.cmd "ecd" }
      { c with s := c.s.setValue "theme" (.str "default") }
    else
      let c := { c with core := c.core.cmd ("eco " ++ theme) }
      { c with s := c.s.setValue "theme" (.str theme) }
  let r := c.core.cmdj "ecj"
  let c := { c with core := r.2 }
  let c := { c with s := mirrorGraphColors c.s r.1 }
  { c with signals := c.signals ++ [.colorsUpdated] }

/-- The member `setConfig`: persisted only for a registered option, passed to
the engine in every case. -/
def setConfig (c : Configuration) (key : String) (value : QVariant) : Configuration :=
  let c :=
    if (asmOptions.lookup key).isSome then
      { c with s := c.s.setValue key value }
    else c
  { c with core := c.core.setConfig key value }

/-- The member `resetToDefaultAsmOptions`.  The loop visits the registry in
the order written; the source's hash fixes no order. -/
def resetToDefaultAsmOptions (c : Configuration) : Configuration :=
  asmOptions.foldl (fun c it => setConfig c it.1 it.2) c

/-- The member `applySavedAsmOptions`.  The loop visits the registry in the
order written; the source's hash fixes no order, so the order of the engine
calls recorded here is one of the possible ones. -/
def applySavedAsmOptions (c : Configuration) : Configuration :=
  asmOptions.foldl
    (fun c it => { c with core := c.core.setConfig it.1 (c.s.valueD it.1 it.2) }) c

/-- The member `getConfigVar`: the engine is asked with the query that fits the
kind of the option's default; an unregistered key gives the invalid variant. -/
def getConfigVar (c : Configuration) (key : String) : QVariant × Configuration :=
  match asmOptions.lookup key with
  | some dflt =>
    match dflt.type with
    | .Bool =>
      let r := c.core.getConfigb key
      (.bool r.1, { c with core := r.2 })
    | .Int =>
      let r := c.core.getConfigi key
      (.int r.1, { c with core := r.2 })
    | _ =>
      let r := c.core.getConfig key
      (.str r.1, { c with core := r.2 })
  | none => (.invalid, c)

/-- The member `getConfigBool`. -/
def getConfigBool (c : Configuration) (key : String) : Bool × Configuration :=
  let r := getConfigVar c key
  (r.1.toBool, r.2)

/-- The member `getConfigInt`. -/
def getConfigInt (c : Configuration) (key : String) : Int × Configuration :=
  let r := getConfigVar c key
  (r.1.toInt c.env, r.2)

/-- The member `getConfigString`. -/
def getConfigString (c : Configuration) (key : String) : String × Configuration :=
  let r := getConfigVar c key
  (r.1.toString c.env, r.2)

/-- Modelled from the spec: `getDarkTheme`, declared in the header
`Configuration.h` that is not part of the sources: the persisted theme id,
the Default theme (0) when none is persisted. -/
def getDarkTheme (c : Configuration) : Int :=
  (c.s.value "dark").toInt c.env

/-- Modelled from the spec: `getCurrentTheme`, declared in the header
`Configuration.h` that is not part of the sources: the persisted theme name,
the header's fallback name when none is persisted. -/
def getCurrentTheme (c : Configuration) : String :=
  (c.s.valueD "theme" (.str c.env.fallbackTheme)).toString c.env

/-- The member `loadInitial`. -/
def loadInitial (c : Configuration) : Configuration :=
  let c := setDarkTheme c (getDarkTheme c)
  let c := setColorTheme c (getCurrentTheme c)
  applySavedAsmOptions c

/-- The member `resetAll`: the engine's configuration is reset, the settings
file removed and the store cleared, then everything is loaded afresh. -/
def resetAll (c : Configuration) : Configuration :=
  let c := { c with core := c.core.cmd "e-" }
  let c := { c with core := c.core.setSettings }
  let c := { c with s := c.s.clear }
  let c := loadInitial c
  { c with signals := c.signals ++ [.fontsUpdated] }

/-- The fifteen colour names every theme has to define. -/
def requiredColors : List String :=
  [ "gui.cflow", "gui.border", "gui.background", "gui.alt_background",
    "gui.disass_selected", "highlight", "highlightWord", "gui.imports", "gui.main",
    "gui.navbar.err", "gui.navbar.code", "gui.navbar.str", "gui.navbar.sym",
    "gui.navbar.empty", "gui.dataoffset" ]

/-- The colours of the required names, in the order of `requiredColors`. -/
def requiredPalette (c : Configuration) : List QColor :=
  requiredColors.map (getColor c)

/-- Whether every required name has its own entry `colors.<name>` in the
store. -/
def hasAllRequired (c : Configuration) : Bool :=
  requiredColors.all fun name => c.s.contains ("colors." ++ name)

/-- The palette `loadDefaultTheme` writes, in the order of `requiredColors`. -/
def lightPalette : List QColor :=
  [ .rgb 0 0 0, .rgb 0 0 0, .rgb 255 255 255, .rgb 245 250 255, .rgb 255 255 255,
    .rgb 210 210 255, .rgb 210 210 255, .rgb 50 140 255, .rgb 0 128 0, .rgb 255 0 0,
    .rgb 104 229 69, .rgb 69 104 229, .rgb 229 150 69, .rgb 100 100 100, .rgb 0 0 0 ]

/-! ## Fixtures for the concrete instances -/

/-- An environment for concrete instances: no style resource, text formats
that answer nothing. -/
def exampleEnv : Env where
  parseInt := fun _ => 0
  colorName := fun _ => ""
  namedColor := fun _ => .invalid
  fontToString := fun _ => ""
  fontFromString := fun _ => ⟨"", 0⟩
  defaultFont := ⟨"", 0⟩
  darkStyleSheet := none
  macx := false
  fallbackTheme := "default"

/-- An engine for concrete instances: nothing configured, two colours in its
table, commands that change nothing. -/
def exampleCore : Core where
  config := fun _ => .invalid
  colors := [("graph.true", [0, 170, 0]), ("comment", [200, 200, 200])]
  calls := []
  onCmd := fun _ st => st
  onSetSettings := fun cfg => cfg

/-- A configuration for concrete instances: an empty store. -/
def exampleConfiguration : Configuration where
  s := ⟨fun _ => none⟩
  logoFile := ""
  styleSheet := ""
  warnings := []
  signals := []
  core := exampleCore
  env := exampleEnv

/-! ## Colour lookup -/

/-- C6: a name with no entry `colors.<name>` in the store resolves to what is
stored under `colors.other`, and a name just set with `setColor` resolves to
the colour that was set. -/
theorem getColor_fallback_or_set (c : Configuration) (name : String) (col : QColor) :
    (c.s.contains ("colors." ++ name) = false →
      getColor c name = (c.s.value "colors.other").toColor c.env) ∧
    getColor (setColor c name col) name = col := by
  constructor
  · intro h
    simp [getColor, h]
  · simp [getColor, setColor, QSettings.contains, QSettings.value, QSettings.setValue,
      QVariant.toColor]

/-- C6, a concrete instance: in a store that only holds `colors.other`, the
unset name `gui.main` resolves to that colour, and resolves to its own colour
once set. -/
theorem getColor_fallback_or_set_witness :
    getColor (setColor exampleConfiguration "other" (.rgb 1 2 3)) "gui.main" = .rgb 1 2 3 ∧
    getColor (setColor (setColor exampleConfiguration "other" (.rgb 1 2 3)) "gui.main"
      (.rgb 0 128 0)) "gui.main" = .rgb 0 128 0 :=
  ⟨((getColor_fallback_or_set (setColor exampleConfiguration "other" (.rgb 1 2 3))
      "gui.main" (.rgb 0 128 0)).1 (by decide)).trans (by decide),
   (getColor_fallback_or_set (setColor exampleConfiguration "other" (.rgb 1 2 3))
      "gui.main" (.rgb 0 128 0)).2⟩

/-! ## Option sync: `setConfig` and the typed accessors -/

/-- On an unregistered key `setConfig` does not touch the store. -/
theorem setConfig_store_of_unregistered (c : Configuration) (key : String) (v : QVariant)
    (h : asmOptions.lookup key = none) : (setConfig c key v).s = c.s := by
  simp [setConfig, h]

/-- On a registered key `setConfig` writes the store entry. -/
theorem setConfig_store_of_registered (c : Configuration) (key : String) (v d : QVariant)
    (h : asmOptions.lookup key = some d) : (setConfig c key v).s = c.s.setValue key v := by
  simp [setConfig, h]

/-- In every case `setConfig` passes the value on to the engine. -/
theorem setConfig_core (c : Configuration) (key : String) (v : QVariant) :
    (setConfig c key v).core = c.core.setConfig key v := by
  unfold setConfig
  split <;> rfl

/-- C1: for a registered key, a value of the kind of the key's default that is
set with `setConfig` is what the typed accessor of that kind reads back, the
engine answering each typed query with what was last written under the key. -/
theorem setConfig_then_get_roundtrip (c : Configuration) (key : String) (d : QVariant)
    (hreg : asmOptions.lookup key = some d) :
    (∀ b : Bool, d.type = .Bool →
      (getConfigBool (setConfig c key (.bool b)) key).1 = b) ∧
    (∀ n : Int, d.type = .Int →
      (getConfigInt (setConfig c key (.int n)) key).1 = n) ∧
    (∀ s : String, d.type = .String →
      (getConfigString (setConfig c key (.str s)) key).1 = s) := by
  refine ⟨fun b hd => ?_, fun n hd => ?_, fun s hd => ?_⟩
  · simp [getConfigBool, getConfigVar, hreg, hd, setConfig_core, Core.setConfig,
      Core.getConfigb, QVariant.toBool]
  · simp [getConfigInt, getConfigVar, hreg, hd, setConfig_core, Core.setConfig,
      Core.getConfigi, QVariant.toInt]
  · simp [getConfigString, getConfigVar, hreg, hd, setConfig_core, Core.setConfig,
      Core.getConfig, QVariant.toString]

/-- C1, concrete instances: a bool option, an int option and the string option
read back what was set. -/
theorem setConfig_then_get_roundtrip_witness :
    (getConfigBool (setConfig exampleConfiguration "asm.bytes" (.bool true)) "asm.bytes").1
      = true ∧
    (getConfigInt (setConfig exampleConfiguration "asm.nbytes" (.int 7)) "asm.nbytes").1
      = 7 ∧
    (getConfigString (setConfig exampleConfiguration "asm.syntax" (.str "att"))
      "asm.syntax").1 = "att" :=
  ⟨(setConfig_then_get_roundtrip exampleConfiguration "asm.bytes" (.bool false)
      (by decide)).1 true (by decide),
   (setConfig_then_get_roundtrip exampleConfiguration "asm.nbytes" (.int 10)
      (by decide)).2.1 7 (by decide),
   (setConfig_then_get_roundtrip exampleConfiguration "asm.syntax" (.str "intel")
      (by decide)).2.2 "att" (by decide)⟩

/-- C2, as stated, fails: `scr.html` is not a registered option, yet after
`setConfig` the engine's configuration holds the value under that key, where
it held nothing before, and the engine has received the call. -/
theorem setConfig_unregistered_changes_engine :
    asmOptions.lookup "scr.html" = none ∧
    exampleConfiguration.core.config "scr.html" = .invalid ∧
    (setConfig exampleConfiguration "scr.html" (.bool true)).core.config "scr.html"
      = .bool true ∧
    (setConfig exampleConfiguration "scr.html" (.bool true)).core.calls
      = [.setConfig "scr.html" (.bool true)] := by
  decide

/-- C2, amended: on an unregistered key `setConfig` leaves the settings store
unchanged, and still passes the value to the engine: the engine's entry for
the key becomes the value, its other entries stay, and it receives exactly
that one call. -/
theorem setConfig_unregistered_store_kept_engine_written (c : Configuration) (key : String)
    (v : QVariant) (h : asmOptions.lookup key = none) :
    (setConfig c key v).s = c.s ∧
    (setConfig c key v).core.config key = v ∧
    (∀ k, k ≠ key → (setConfig c key v).core.config k = c.core.config k) ∧
    (setConfig c key v).core.calls = c.core.calls ++ [.setConfig key v] := by
  refine ⟨setConfig_store_of_unregistered c key v h, ?_, ?_, ?_⟩
  · simp [setConfig_core, Core.setConfig]
  · intro k hk
    simp [setConfig_core, Core.setConfig, hk]
  · simp [setConfig_core, Core.setConfig]

/-- C2, amended, a concrete instance on the unregistered key `scr.html`. -/
theorem setConfig_unregistered_store_kept_engine_written_witness :
    (setConfig exampleConfiguration "scr.html" (.bool true)).s = exampleConfiguration.s ∧
    (setConfig exampleConfiguration "scr.html" (.bool true)).core.config "scr.html"
      = .bool true :=
  ⟨(setConfig_unregistered_store_kept_engine_written exampleConfiguration "scr.html"
      (.bool true) (by decide)).1,
   (setConfig_unregistered_store_kept_engine_written exampleConfiguration "scr.html"
      (.bool true) (by decide)).2.1⟩

/-- C3: on an unregistered key `setConfig` leaves the settings store as it
was: the key has an entry afterwards only if it had one before, and every key
keeps its value. -/
theorem setConfig_unregistered_store_unchanged (c : Configuration) (key : String)
    (v : QVariant) (h : asmOptions.lookup key = none) :
    (setConfig c key v).s = c.s ∧
    (setConfig c key v).s.contains key = c.s.contains key ∧
    (∀ k, (setConfig c key v).s.get k = c.s.get k) := by
  have hs := setConfig_store_of_unregistered c key v h
  exact ⟨hs, by rw [hs], fun k => by rw [hs]⟩

/-- C3, a concrete instance: setting the unregistered `scr.html` on an empty
store leaves no entry for it. -/
theorem setConfig_unregistered_store_unchanged_witness :
    (setConfig exampleConfiguration "scr.html" (.bool true)).s.contains "scr.html"
      = false :=
  ((setConfig_unregistered_store_unchanged exampleConfiguration "scr.html" (.bool true)
    (by decide)).2.1).trans (by decide)

/-- C4: for an unregistered key `getConfigVar` answers the invalid variant and
leaves everything, the engine's call record included, as it was, so the typed
accessors give false, zero and the empty string; for a registered key exactly
one engine query is made, chosen by the kind of the default: the boolean
query for a bool, the integer query for an int, the string query otherwise. -/
theorem getConfigVar_unregistered_and_dispatch (c : Configuration) (key : String) :
    (asmOptions.lookup key = none →
      getConfigVar c key = (.invalid, c) ∧
      getConfigBool c key = (false, c) ∧
      getConfigInt c key = (0, c) ∧
      getConfigString c key = ("", c)) ∧
    (∀ d, asmOptions.lookup key = some d →
      (d.type = .Bool →
        (getConfigVar c key).1 = .bool (c.core.getConfigb key).1 ∧
        (getConfigVar c key).2.core.calls = c.core.calls ++ [.getConfigb key]) ∧
      (d.type = .Int →
        (getConfigVar c key).1 = .int (c.core.getConfigi key).1 ∧
        (getConfigVar c key).2.core.calls = c.core.calls ++ [.getConfigi key]) ∧
      (d.type ≠ .Bool → d.type ≠ .Int →
        (getConfigVar c key).1 = .str (c.core.getConfig key).1 ∧
        (getConfigVar c key).2.core.calls = c.core.calls ++ [.getConfig key])) := by
  constructor
  · intro h
    simp [getConfigBool, getConfigInt, getConfigString, getConfigVar, h, QVariant.toBool,
      QVariant.toInt, QVariant.toString]
  · intro d hd
    refine ⟨fun ht => ?_, fun ht => ?_, fun hb hi => ?_⟩
    · simp [getConfigVar, hd, ht, Core.getConfigb]
    · simp [getConfigVar, hd, ht, Core.getConfigi]
    · cases d <;> simp_all [getConfigVar, QVariant.type, Core.getConfig]

/-- C4, concrete instances: the unregistered `scr.html` reads as false even
when the engine holds true for it, and the registered `asm.tabs` is read with
the integer query. -/
theorem getConfigVar_unregistered_and_dispatch_witness :
    getConfigBool (setConfig exampleConfiguration "scr.html" (.bool true)) "scr.html"
      = (false, setConfig exampleConfiguration "scr.html" (.bool true)) ∧
    (getConfigVar exampleConfiguration "asm.tabs").2.core.calls = [.getConfigi "asm.tabs"] :=
  ⟨((getConfigVar_unregistered_and_dispatch
      (setConfig exampleConfiguration "scr.html" (.bool true)) "scr.html").1
        (by decide)).2.1,
   (((getConfigVar_unregistered_and_dispatch exampleConfiguration "asm.tabs").2
      (.int 5) (by decide)).2.1 (by decide)).2⟩

/-! ## Theme palettes -/

/-- After the Default loader the required names hold the light palette. -/
theorem loadDefaultTheme_palette (c : Configuration) :
    (∀ name ∈ requiredColors, (loadDefaultTheme c).s.contains ("colors." ++ name) = true) ∧
    requiredPalette (loadDefaultTheme c) = lightPalette := by
  simp [requiredPalette, lightPalette, requiredColors, loadDefaultTheme, setColor, getColor,
    QSettings.contains, QSettings.value, QSettings.setValue, QVariant.toColor,
    QColor.fromRgb]

/-- The store after `loadBaseDark`: the nine shared colours are written,
whether or not the style resource was found. -/
theorem loadBaseDark_s (c : Configuration) :
    (loadBaseDark c).s =
      ((((((((c.s.setValue "colors.gui.cflow" (.color (.rgb 255 255 255))).setValue
        "colors.gui.dataoffset" (.color (.rgb 255 255 255))).setValue
        "colors.gui.imports" (.color (.rgb 50 140 255))).setValue
        "colors.gui.main" (.color (.rgb 0 128 0))).setValue
        "colors.gui.navbar.err" (.color (.rgb 255 0 0))).setValue
        "colors.gui.navbar.code" (.color (.rgb 104 229 69))).setValue
        "colors.gui.navbar.str" (.color (.rgb 69 104 229))).setValue
        "colors.gui.navbar.sym" (.color (.rgb 229 150 69))).setValue
        "colors.gui.navbar.empty" (.color (.rgb 100 100 100)) := by
  unfold loadBaseDark
  cases c.env.darkStyleSheet <;> simp [setColor, QColor.fromRgb]

/-- The environment is never changed by `loadBaseDark`. -/
theorem loadBaseDark_env (c : Configuration) : (loadBaseDark c).env = c.env := by
  unfold loadBaseDark
  cases c.env.darkStyleSheet <;> rfl

/-- After the Dark loader the required names hold the dark palette. -/
theorem loadDarkTheme_palette (c : Configuration) :
    (∀ name ∈ requiredColors, (loadDarkTheme c).s.contains ("colors." ++ name) = true) ∧
    requiredPalette (loadDarkTheme c) =
      [ .rgb 255 255 255, .rgb 255 255 255, .rgb 36 66 79, .rgb 58 100 128, .rgb 36 66 79,
        .rgb 64 115 115, .rgb 64 115 115, .rgb 50 140 255, .rgb 0 128 0, .rgb 255 0 0,
        .rgb 104 229 69, .rgb 69 104 229, .rgb 229 150 69, .rgb 100 100 100,
        .rgb 255 255 255 ] := by
  simp [requiredPalette, requiredColors, loadDarkTheme, loadBaseDark_s, setColor, getColor,
    QSettings.contains, QSettings.value, QSettings.setValue, QVariant.toColor,
    QColor.fromRgb]

/-- After the DarkGrey loader the required names hold the dark grey palette. -/
theorem loadDarkGreyTheme_palette (c : Configuration) :
    (∀ name ∈ requiredColors, (loadDarkGreyTheme c).s.contains ("colors." ++ name) = true) ∧
    requiredPalette (loadDarkGreyTheme c) =
      [ .rgb 255 255 255, .rgb 100 100 100, .rgb 37 40 43, .rgb 28 31 36, .rgb 44 53 54,
        .rgb 21 29 29, .rgb 100 100 100, .rgb 50 140 255, .rgb 0 128 0, .rgb 255 0 0,
        .rgb 104 229 69, .rgb 69 104 229, .rgb 229 150 69, .rgb 100 100 100,
        .rgb 255 255 255 ] := by
  simp [requiredPalette, requiredColors, loadDarkGreyTheme, loadBaseDark_s, setColor,
    getColor, QSettings.contains, QSettings.value, QSettings.setValue, QVariant.toColor,
    QColor.fromRgb]

/-- C5: for each of the theme ids 0 (Default), 1 (Dark) and 2 (DarkGrey) and
every prior state, after `setDarkTheme` each of the fifteen required names has
its own entry in the store, and `getColor` gives for it the colour the theme's
loader wrote (listed in the order of `requiredColors`), whatever is stored
under `colors.other`. -/
theorem setDarkTheme_palette_complete (c : Configuration) :
    (hasAllRequired (setDarkTheme c 0) = true ∧
      requiredPalette (setDarkTheme c 0) =
        [ .rgb 0 0 0, .rgb 0 0 0, .rgb 255 255 255, .rgb 245 250 255, .rgb 255 255 255,
          .rgb 210 210 255, .rgb 210 210 255, .rgb 50 140 255, .rgb 0 128 0,
          .rgb 255 0 0, .rgb 104 229 69, .rgb 69 104 229, .rgb 229 150 69,
          .rgb 100 100 100, .rgb 0 0 0 ]) ∧
    (hasAllRequired (setDarkTheme c 1) = true ∧
      requiredPalette (setDarkTheme c 1) =
        [ .rgb 255 255 255, .rgb 255 255 255, .rgb 36 66 79, .rgb 58 100 128,
          .rgb 36 66 79, .rgb 64 115 115, .rgb 64 115 115, .rgb 50 140 255, .rgb 0 128 0,
          .rgb 255 0 0, .rgb 104 229 69, .rgb 69 104 229, .rgb 229 150 69,
          .rgb 100 100 100, .rgb 255 255 255 ]) ∧
    (hasAllRequired (setDarkTheme c 2) = true ∧
      requiredPalette (setDarkTheme c 2) =
        [ .rgb 255 255 255, .rgb 100 100 100, .rgb 37 40 43, .rgb 28 31 36,
          .rgb 44 53 54, .rgb 21 29 29, .rgb 100 100 100, .rgb 50 140 255, .rgb 0 128 0,
          .rgb 255 0 0, .rgb 104 229 69, .rgb 69 104 229, .rgb 229 150 69,
          .rgb 100 100 100, .rgb 255 255 255 ]) := by
  refine ⟨⟨?_, ?_⟩, ⟨?_, ?_⟩, ⟨?_, ?_⟩⟩
  · simpa [hasAllRequired, setDarkTheme, List.all_eq_true] using
      (loadDefaultTheme_palette _).1
  · simpa [requiredPalette, getColor, setDarkTheme] using (loadDefaultTheme_palette _).2
  · simpa [hasAllRequired, setDarkTheme, List.all_eq_true] using
      (loadDarkTheme_palette _).1
  · simpa [requiredPalette, getColor, setDarkTheme] using (loadDarkTheme_palette _).2
  · simpa [hasAllRequired, setDarkTheme, List.all_eq_true] using
      (loadDarkGreyTheme_palette _).1
  · simpa [requiredPalette, getColor, setDarkTheme] using (loadDarkGreyTheme_palette _).2

/-- The three loaders write colour entries only: the entry `dark` is kept. -/
theorem loaders_keep_dark (c : Configuration) :
    (loadDefaultTheme c).s.get "dark" = c.s.get "dark" ∧
    (loadDarkTheme c).s.get "dark" = c.s.get "dark" ∧
    (loadDarkGreyTheme c).s.get "dark" = c.s.get "dark" := by
  simp [loadDefaultTheme, loadDarkTheme, loadDarkGreyTheme, loadBaseDark_s, setColor,
    QSettings.setValue]

/-- The required colours are read from the store and the environment only. -/
theorem requiredPalette_congr (x y : Configuration) (hs : x.s = y.s) (he : x.env = y.env) :
    requiredPalette x = requiredPalette y := by
  simp [requiredPalette, getColor, hs, he]

/-- The store and environment `setDarkTheme` ends with are those of the loader
it selects, run on the store that holds the id. -/
theorem setDarkTheme_s_env (c : Configuration) (theme : Int) :
    (theme = 1 →
      (setDarkTheme c theme).s
          = (loadDarkTheme { c with s := c.s.setValue "dark" (.int theme) }).s ∧
      (setDarkTheme c theme).env
          = (loadDarkTheme { c with s := c.s.setValue "dark" (.int theme) }).env) ∧
    (theme = 2 →
      (setDarkTheme c theme).s
          = (loadDarkGreyTheme { c with s := c.s.setValue "dark" (.int theme) }).s ∧
      (setDarkTheme c theme).env
          = (loadDarkGreyTheme { c with s := c.s.setValue "dark" (.int theme) }).env) ∧
    (theme ≠ 1 → theme ≠ 2 →
      (setDarkTheme c theme).s
          = (loadDefaultTheme { c with s := c.s.setValue "dark" (.int theme) }).s ∧
      (setDarkTheme c theme).env
          = (loadDefaultTheme { c with s := c.s.setValue "dark" (.int theme) }).env) := by
  refine ⟨fun h1 => ?_, fun h2 => ?_, fun h1 h2 => ?_⟩
  · simp [setDarkTheme, h1]
  · simp [setDarkTheme, h2]
  · simp [setDarkTheme, h1, h2]

/-- The required colours after `setDarkTheme`, by the loader selected. -/
theorem setDarkTheme_requiredPalette (c : Configuration) (theme : Int) :
    requiredPalette (setDarkTheme c theme) =
      if theme = 1 then
        [ .rgb 255 255 255, .rgb 255 255 255, .rgb 36 66 79, .rgb 58 100 128,
          .rgb 36 66 79, .rgb 64 115 115, .rgb 64 115 115, .rgb 50 140 255, .rgb 0 128 0,
          .rgb 255 0 0, .rgb 104 229 69, .rgb 69 104 229, .rgb 229 150 69,
          .rgb 100 100 100, .rgb 255 255 255 ]
      else if theme = 2 then
        [ .rgb 255 255 255, .rgb 100 100 100, .rgb 37 40 43, .rgb 28 31 36,
          .rgb 44 53 54, .rgb 21 29 29, .rgb 100 100 100, .rgb 50 140 255, .rgb 0 128 0,
          .rgb 255 0 0, .rgb 104 229 69, .rgb 69 104 229, .rgb 229 150 69,
          .rgb 100 100 100, .rgb 255 255 255 ]
      else lightPalette := by
  have h := setDarkTheme_s_env c theme
  by_cases h1 : theme = 1
  · rw [if_pos h1, requiredPalette_congr _ _ (h.1 h1).1 (h.1 h1).2]
    exact (loadDarkTheme_palette _).2
  · by_cases h2 : theme = 2
    · rw [if_neg h1, if_pos h2, requiredPalette_congr _ _ (h.2.1 h2).1 (h.2.1 h2).2]
      exact (loadDarkGreyTheme_palette _).2
    · rw [if_neg h1, if_neg h2, requiredPalette_congr _ _ (h.2.2 h1 h2).1 (h.2.2 h1 h2).2]
      exact (loadDefaultTheme_palette _).2

/-- C10: for every integer id `setDarkTheme` persists the id under `dark` and
is the run of one palette loader on the store holding the id, followed by the
notification: the Dark loader for 1, the DarkGrey loader for 2, the Default
loader for every other id; and two runs that select the same loader end with
the same fifteen required colours, whatever the two prior states were. -/
theorem setDarkTheme_persists_and_dispatches (c : Configuration) (theme : Int) :
    (setDarkTheme c theme).s.value "dark" = .int theme ∧
    (theme = 1 →
      setDarkTheme c theme =
        { loadDarkTheme { c with s := c.s.setValue "dark" (.int theme) } with
          signals :=
            (loadDarkTheme { c with s := c.s.setValue "dark" (.int theme) }).signals
              ++ [.colorsUpdated] }) ∧
    (theme = 2 →
      setDarkTheme c theme =
        { loadDarkGreyTheme { c with s := c.s.setValue "dark" (.int theme) } with
          signals :=
            (loadDarkGreyTheme { c with s := c.s.setValue "dark" (.int theme) }).signals
              ++ [.colorsUpdated] }) ∧
    (theme ≠ 1 → theme ≠ 2 →
      setDarkTheme c theme =
        { loadDefaultTheme { c with s := c.s.setValue "dark" (.int theme) } with
          signals :=
            (loadDefaultTheme { c with s := c.s.setValue "dark" (.int theme) }).signals
              ++ [.colorsUpdated] }) ∧
    (∀ (c2 : Configuration) (theme2 : Int),
      (theme = 1 ↔ theme2 = 1) → (theme = 2 ↔ theme2 = 2) →
      requiredPalette (setDarkTheme c theme) = requiredPalette (setDarkTheme c2 theme2)) := by
  refine ⟨?_, ?_, ?_, ?_, ?_⟩
  · have hk := loaders_keep_dark { c with s := c.s.setValue "dark" (.int theme) }
    have hs := setDarkTheme_s_env c theme
    have h0 : ({ c with s := c.s.setValue "dark" (.int theme) } : Configuration).s.get "dark"
        = some (.int theme) := by simp [QSettings.setValue]
    unfold QSettings.value
    by_cases h1 : theme = 1
    · rw [(hs.1 h1).1, hk.2.1, h0]; rfl
    · by_cases h2 : theme = 2
      · rw [(hs.2.1 h2).1, hk.2.2, h0]; rfl
      · rw [(hs.2.2 h1 h2).1, hk.1, h0]; rfl
  · intro h1
    simp [setDarkTheme, h1]
  · intro h2
    simp [setDarkTheme, h2]
  · intro h1 h2
    simp [setDarkTheme, h1, h2]
  · intro c2 theme2 e1 e2
    rw [setDarkTheme_requiredPalette, setDarkTheme_requiredPalette]
    by_cases h1 : theme = 1
    · rw [if_pos h1, if_pos (e1.mp h1)]
    · have h1' : theme2 ≠ 1 := fun h => h1 (e1.mpr h)
      by_cases h2 : theme = 2
      · rw [if_neg h1, if_neg h1', if_pos h2, if_pos (e2.mp h2)]
      · have h2' : theme2 ≠ 2 := fun h => h2 (e2.mpr h)
        rw [if_neg h1, if_neg h1', if_neg h2, if_neg h2']

/-- C10, concrete instances: the id 7 is persisted as it is and selects the
Default loader, and so do the ids 7 and -3 on two different prior states. -/
theorem setDarkTheme_persists_and_dispatches_witness :
    (setDarkTheme exampleConfiguration 7).s.value "dark" = .int 7 ∧
    (setDarkTheme exampleConfiguration 7).logoFile = ":/img/cutter_plain.svg" ∧
    requiredPalette (setDarkTheme exampleConfiguration 7) =
      requiredPalette (setDarkTheme (setColor exampleConfiguration "gui.main" (.rgb 9 9 9))
        (-3)) :=
  ⟨(setDarkTheme_persists_and_dispatches exampleConfiguration 7).1,
   ((congrArg Configuration.logoFile
      ((setDarkTheme_persists_and_dispatches exampleConfiguration 7).2.2.2.1
        (by decide) (by decide))).trans (by rfl)),
   (setDarkTheme_persists_and_dispatches exampleConfiguration 7).2.2.2.2
      (setColor exampleConfiguration "gui.main" (.rgb 9 9 9)) (-3) (by decide) (by decide)⟩

/-! ## Colour themes of the engine -/

/-- Every colour key starts with the letter c. -/
theorem colorsKey_head (name : String) : ("colors." ++ name).data.head? = some 'c' := by
  rw [String.data_append]
  rfl

/-- Distinct colour names have distinct colour keys. -/
theorem colorsKey_inj {a b : String} (h : "colors." ++ a = "colors." ++ b) : a = b := by
  have h2 := congrArg String.data h
  rw [String.data_append, String.data_append] at h2
  exact String.ext (List.append_cancel_left h2)

/-- A key that does not start with the letter c is no colour key. -/
theorem ne_colorsKey_of_head {k : String} (h : k.data.head? ≠ some 'c') (name : String) :
    k ≠ "colors." ++ name := by
  intro hk
  exact h (hk ▸ colorsKey_head name)

/-- The mirroring loop leaves alone every key that is not the colour key of a
table key containing `graph`. -/
theorem mirrorGraphColors_get_of_ne (table : ColorTable) (s : QSettings) (k : String)
    (h : ∀ e ∈ table, strContains e.1 "graph" = true → k ≠ "colors." ++ e.1) :
    (mirrorGraphColors s table).get k = s.get k := by
  induction table generalizing s with
  | nil => rfl
  | cons e rest ih =>
    obtain ⟨key, rgb⟩ := e
    have hrest : ∀ e ∈ rest, strContains e.1 "graph" = true → k ≠ "colors." ++ e.1 :=
      fun e he => h e (List.mem_cons_of_mem _ he)
    unfold mirrorGraphColors
    by_cases hg : strContains key "graph" = true
    · have hk : k ≠ "colors." ++ key := h (key, rgb) (List.mem_cons_self _ _) hg
      simp only [hg, Bool.not_true, Bool.false_eq_true, if_false]
      rw [ih _ hrest]
      simp [QSettings.setValue, hk]
    · simp only [Bool.not_eq_true] at hg
      simp only [hg, Bool.not_false, if_true]
      exact ih _ hrest

/-- The mirroring loop leaves alone every key that does not start with the
letter c. -/
theorem mirrorGraphColors_get_of_head (table : ColorTable) (s : QSettings) (k : String)
    (h : k.data.head? ≠ some 'c') : (mirrorGraphColors s table).get k = s.get k :=
  mirrorGraphColors_get_of_ne table s k fun e _ _ => ne_colorsKey_of_head h e.1

/-- The mirroring loop leaves alone the colour of every name that does not
contain `graph`. -/
theorem mirrorGraphColors_get_of_not_graph (table : ColorTable) (s : QSettings)
    (name : String) (h : strContains name "graph" = false) :
    (mirrorGraphColors s table).get ("colors." ++ name) = s.get ("colors." ++ name) :=
  mirrorGraphColors_get_of_ne table s _ fun e _ hg hk => by
    rw [← colorsKey_inj hk, h] at hg
    exact Bool.false_ne_true hg

/-- The mirroring loop stores, for a table key containing `graph`, the colour
built from the first three numbers of its array. -/
theorem mirrorGraphColors_get_of_mem (table : ColorTable) (s : QSettings)
    (hnd : (table.map Prod.fst).Nodup) (key : String) (rgb : List Int)
    (hmem : (key, rgb) ∈ table) (hg : strContains key "graph" = true) :
    (mirrorGraphColors s table).get ("colors." ++ key) =
      some (.color (QColor.fromRgb (jsonAt rgb 0) (jsonAt rgb 1) (jsonAt rgb 2))) := by
  induction table generalizing s with
  | nil => cases hmem
  | cons e rest ih =>
    obtain ⟨key0, rgb0⟩ := e
    rw [List.map_cons, List.nodup_cons] at hnd
    rcases List.mem_cons.mp hmem with heq | hin
    · cases heq
      unfold mirrorGraphColors
      simp only [hg, Bool.not_true, Bool.false_eq_true, if_false]
      rw [mirrorGraphColors_get_of_ne]
      · simp [QSettings.setValue]
      · intro e he _ hk
        have hk2 : key = e.1 := colorsKey_inj hk
        have hin : e.1 ∈ rest.map Prod.fst := List.mem_map_of_mem Prod.fst he
        rw [← hk2] at hin
        exact hnd.1 hin
    · unfold mirrorGraphColors
      split
      · exact ih _ hnd.2 hin
      · exact ih _ hnd.2 hin

/-- The store after `setColorTheme`: the theme name is recorded, then the
colour table the engine reports after the command is mirrored. -/
theorem setColorTheme_s (c : Configuration) (theme : String) :
    (setColorTheme c theme).s =
      mirrorGraphColors (c.s.setValue "theme" (.str theme))
        (setColorTheme c theme).core.colors := by
  by_cases h : theme = "default"
  · simp [setColorTheme, h, Core.cmdj, Core.cmd]
  · simp [setColorTheme, h, Core.cmdj, Core.cmd]

/-- What `setColorTheme` leaves as it was: the environment, the logo and the
style sheet. -/
theorem setColorTheme_frame (c : Configuration) (theme : String) :
    (setColorTheme c theme).env = c.env ∧
    (setColorTheme c theme).logoFile = c.logoFile ∧
    (setColorTheme c theme).styleSheet = c.styleSheet := by
  by_cases h : theme = "default" <;> simp [setColorTheme, h]

/-- C8: `setColorTheme` with the name `default` sends the engine the reset
command `ecd` once, then the colour query, and no palette-load command, and
records the theme name `default`; with any other name it sends one command
`eco <name>`, then the colour query, and records the name as given.  In both
cases, for every key containing `graph` of the colour table the engine
reports afterwards (a JSON object, one entry per key) whose entry is an RGB
triple, the store holds that triple under the colour key, and `getColor` of
the key returns it. -/
theorem setColorTheme_commands_and_graph_mirror (c : Configuration) (theme : String) :
    (theme = "default" →
      (setColorTheme c theme).core.calls = c.core.calls ++ [.cmd "ecd", .cmdj "ecj"] ∧
      (setColorTheme c theme).s.value "theme" = .str "default") ∧
    (theme ≠ "default" →
      (setColorTheme c theme).core.calls
        = c.core.calls ++ [.cmd ("eco " ++ theme), .cmdj "ecj"] ∧
      (setColorTheme c theme).s.value "theme" = .str theme) ∧
    (((setColorTheme c theme).core.colors.map Prod.fst).Nodup →
      ∀ (key : String) (r g b : Int),
        (key, [r, g, b]) ∈ (setColorTheme c theme).core.colors →
        strContains key "graph" = true →
        0 ≤ r ∧ r ≤ 255 ∧ 0 ≤ g ∧ g ≤ 255 ∧ 0 ≤ b ∧ b ≤ 255 →
        (setColorTheme c theme).s.get ("colors." ++ key) = some (.color (.rgb r g b)) ∧
        getColor (setColorTheme c theme) key = .rgb r g b) := by
  have htheme : (setColorTheme c theme).s.value "theme" = .str theme := by
    rw [setColorTheme_s, QSettings.value,
      mirrorGraphColors_get_of_head _ _ "theme" (by decide)]
    simp [QSettings.setValue]
  refine ⟨fun h => ⟨?_, ?_⟩, fun h => ⟨?_, ?_⟩, ?_⟩
  · simp [setColorTheme, h, Core.cmdj, Core.cmd]
  · rw [htheme, h]
  · simp [setColorTheme, h, Core.cmdj, Core.cmd]
  · exact htheme
  · intro hnd key r g b hmem hg hrange
    have hget : (setColorTheme c theme).s.get ("colors." ++ key)
        = some (.color (.rgb r g b)) := by
      rw [setColorTheme_s, mirrorGraphColors_get_of_mem _ _ hnd key [r, g, b] hmem hg]
      obtain ⟨h1, h2, h3, h4, h5, h6⟩ := hrange
      have hr : jsonToInt r = r := by unfold jsonToInt; rw [if_pos]; omega
      have hgg : jsonToInt g = g := by unfold jsonToInt; rw [if_pos]; omega
      have hb : jsonToInt b = b := by unfold jsonToInt; rw [if_pos]; omega
      simp [jsonAt, hr, hgg, hb, QColor.fromRgb, h1, h2, h3, h4, h5, h6]
    refine ⟨hget, ?_⟩
    simp [getColor, QSettings.contains, QSettings.value, hget, QVariant.toColor]

/-- C8, a concrete instance: with the name `default` on the example engine,
whose table holds `graph.true` as (0, 170, 0), the calls are `ecd` and `ecj`,
and the graph colour is found in the store. -/
theorem setColorTheme_commands_and_graph_mirror_witness :
    (setColorTheme exampleConfiguration "default").core.calls = [.cmd "ecd", .cmdj "ecj"] ∧
    (setColorTheme exampleConfiguration "solarized").core.calls
      = [.cmd "eco solarized", .cmdj "ecj"] ∧
    getColor (setColorTheme exampleConfiguration "default") "graph.true" = .rgb 0 170 0 :=
  ⟨((setColorTheme_commands_and_graph_mirror exampleConfiguration "default").1 rfl).1,
   ((setColorTheme_commands_and_graph_mirror exampleConfiguration "solarized").2.1
      (by decide)).1,
   ((setColorTheme_commands_and_graph_mirror exampleConfiguration "default").2.2
      (by decide) "graph.true" 0 170 0 (by decide) (by decide) (by decide)).2⟩

/-! ## Resetting and applying the options -/

/-- The registry has one entry per key. -/
theorem asmOptions_nodup : (asmOptions.map Prod.fst).Nodup := by
  decide

/-- Looking a registry key up finds its default, which is a bool, an int or a
string. -/
theorem asmOptions_lookup_of_mem :
    ∀ it ∈ asmOptions, asmOptions.lookup it.1 = some it.2 ∧
      (it.2.type = .Bool ∨ it.2.type = .Int ∨ it.2.type = .String) := by
  decide

/-- No registry key starts with the letter c, and none is `dark`, `theme` or
`font`. -/
theorem asmOptions_keys_head :
    ∀ it ∈ asmOptions, it.1.data.head? ≠ some 'c' ∧ it.1 ≠ "dark" ∧ it.1 ≠ "theme" ∧
      it.1 ≠ "font" := by
  decide

/-- Pushing saved options changes the engine only. -/
theorem applyFold_frame (L : List (String × QVariant)) (c : Configuration) :
    (L.foldl (fun c it =>
        { c with core := c.core.setConfig it.1 (c.s.valueD it.1 it.2) }) c).s = c.s ∧
    (L.foldl (fun c it =>
        { c with core := c.core.setConfig it.1 (c.s.valueD it.1 it.2) }) c).env = c.env ∧
    (L.foldl (fun c it =>
        { c with core := c.core.setConfig it.1 (c.s.valueD it.1 it.2) }) c).logoFile
      = c.logoFile ∧
    (L.foldl (fun c it =>
        { c with core := c.core.setConfig it.1 (c.s.valueD it.1 it.2) }) c).styleSheet
      = c.styleSheet := by
  induction L generalizing c with
  | nil => exact ⟨rfl, rfl, rfl, rfl⟩
  | cons x rest ih =>
    rw [List.foldl_cons]
    exact ih _

/-- Pushing saved options leaves the engine's entry of a key that is not
among the options pushed. -/
theorem applyFold_config_of_not_mem (L : List (String × QVariant)) (c : Configuration)
    (k : String) (hk : k ∉ L.map Prod.fst) :
    (L.foldl (fun c it =>
        { c with core := c.core.setConfig it.1 (c.s.valueD it.1 it.2) }) c).core.config k
      = c.core.config k := by
  induction L generalizing c with
  | nil => rfl
  | cons x rest ih =>
    rw [List.map_cons, List.mem_cons, not_or] at hk
    rw [List.foldl_cons, ih _ hk.2]
    simp [Core.setConfig, hk.1]

/-- Pushing saved options gives the engine, for each option, the stored value
or the default when nothing is stored. -/
theorem applyFold_config_of_mem (L : List (String × QVariant)) (c : Configuration)
    (hnd : (L.map Prod.fst).Nodup) (k : String) (d : QVariant) (hmem : (k, d) ∈ L) :
    (L.foldl (fun c it =>
        { c with core := c.core.setConfig it.1 (c.s.valueD it.1 it.2) }) c).core.config k
      = c.s.valueD k d := by
  induction L generalizing c with
  | nil => cases hmem
  | cons x rest ih =>
    rw [List.map_cons, List.nodup_cons] at hnd
    rw [List.foldl_cons]
    rcases List.mem_cons.mp hmem with heq | hin
    · subst heq
      rw [applyFold_config_of_not_mem _ _ _ hnd.1]
      simp [Core.setConfig]
    · rw [ih _ hnd.2 hin]

/-- The calls the engine receives while the saved options are pushed. -/
theorem applyFold_calls (L : List (String × QVariant)) (c : Configuration) :
    (L.foldl (fun c it =>
        { c with core := c.core.setConfig it.1 (c.s.valueD it.1 it.2) }) c).core.calls
      = c.core.calls ++ L.map (fun it => CoreCall.setConfig it.1 (c.s.valueD it.1 it.2)) := by
  induction L generalizing c with
  | nil => simp
  | cons x rest ih =>
    rw [List.foldl_cons, ih]
    simp [Core.setConfig]

/-- Resetting options leaves the store entry of a key that is not among the
options reset. -/
theorem resetFold_get_of_not_mem (L : List (String × QVariant)) (c : Configuration)
    (k : String) (hk : k ∉ L.map Prod.fst) :
    (L.foldl (fun c it => setConfig c it.1 it.2) c).s.get k = c.s.get k := by
  induction L generalizing c with
  | nil => rfl
  | cons x rest ih =>
    rw [List.map_cons, List.mem_cons, not_or] at hk
    rw [List.foldl_cons, ih _ hk.2]
    unfold setConfig
    split
    · simp [QSettings.setValue, hk.1]
    · rfl

/-- Resetting registered options stores each one's default. -/
theorem resetFold_get_of_mem (L : List (String × QVariant)) (c : Configuration)
    (hnd : (L.map Prod.fst).Nodup) (hreg : ∀ it ∈ L, (asmOptions.lookup it.1).isSome = true)
    (k : String) (d : QVariant) (hmem : (k, d) ∈ L) :
    (L.foldl (fun c it => setConfig c it.1 it.2) c).s.get k = some d := by
  induction L generalizing c with
  | nil => cases hmem
  | cons x rest ih =>
    rw [List.map_cons, List.nodup_cons] at hnd
    rw [List.foldl_cons]
    rcases List.mem_cons.mp hmem with heq | hin
    · subst heq
      rw [resetFold_get_of_not_mem _ _ _ hnd.1]
      have hr := hreg (k, d) (List.mem_cons_self _ _)
      simp only at hr
      simp [setConfig, hr, QSettings.setValue]
    · exact ih _ hnd.2 (fun it hit => hreg it (List.mem_cons_of_mem _ hit)) hin

/-- C7: after `resetToDefaultAsmOptions` followed by `applySavedAsmOptions`,
from any prior store and engine, every registry key has its registry default
as its store entry, as the engine's entry, and as the value `getConfigVar`
reads back from the engine. -/
theorem reset_then_apply_yields_defaults (c : Configuration) (key : String) (d : QVariant)
    (hmem : (key, d) ∈ asmOptions) :
    (applySavedAsmOptions (resetToDefaultAsmOptions c)).s.get key = some d ∧
    (applySavedAsmOptions (resetToDefaultAsmOptions c)).core.config key = d ∧
    (getConfigVar (applySavedAsmOptions (resetToDefaultAsmOptions c)) key).1 = d := by
  have hl := asmOptions_lookup_of_mem (key, d) hmem
  have hstore : (resetToDefaultAsmOptions c).s.get key = some d :=
    resetFold_get_of_mem asmOptions c asmOptions_nodup
      (fun it hit => by rw [(asmOptions_lookup_of_mem it hit).1]; rfl) key d hmem
  have hs : (applySavedAsmOptions (resetToDefaultAsmOptions c)).s.get key = some d := by
    unfold applySavedAsmOptions
    rw [(applyFold_frame _ _).1]
    exact hstore
  have hcfg : (applySavedAsmOptions (resetToDefaultAsmOptions c)).core.config key = d := by
    unfold applySavedAsmOptions
    rw [applyFold_config_of_mem _ _ asmOptions_nodup key d hmem]
    simp [QSettings.valueD, hstore]
  refine ⟨hs, hcfg, ?_⟩
  obtain ⟨hlook, htype⟩ := hl
  simp only at hlook htype
  cases d <;>
    simp_all [getConfigVar, QVariant.type, Core.getConfigb, Core.getConfigi, Core.getConfig]

/-- C7, a concrete instance: an engine and a store that held other values for
`asm.tabs` end with its default 5. -/
theorem reset_then_apply_yields_defaults_witness :
    (getConfigVar (applySavedAsmOptions (resetToDefaultAsmOptions
      (setConfig exampleConfiguration "asm.tabs" (.int 9)))) "asm.tabs").1 = .int 5 :=
  (reset_then_apply_yields_defaults (setConfig exampleConfiguration "asm.tabs" (.int 9))
    "asm.tabs" (.int 5) (by decide)).2.2

/-! ## Full reset -/

/-- How `resetAll` unfolds: on the cleared store the persisted theme id reads
as 0 and the theme name as the fallback, so the initial load is the Default
theme, the fallback colour theme, and the push of the options. -/
theorem resetAll_eq (c : Configuration) :
    resetAll c =
      { applySavedAsmOptions (setColorTheme (setDarkTheme
          { c with core := (c.core.cmd "e-").setSettings, s := c.s.clear } 0)
          c.env.fallbackTheme) with
        signals := (applySavedAsmOptions (setColorTheme (setDarkTheme
          { c with core := (c.core.cmd "e-").setSettings, s := c.s.clear } 0)
          c.env.fallbackTheme)).signals ++ [.fontsUpdated] } := by
  have hdark : getDarkTheme { c with core := (c.core.cmd "e-").setSettings, s := c.s.clear }
      = 0 := rfl
  have htheme : getCurrentTheme (setDarkTheme
      { c with core := (c.core.cmd "e-").setSettings, s := c.s.clear } 0)
      = c.env.fallbackTheme := by
    simp [getCurrentTheme, setDarkTheme, loadDefaultTheme, setColor, QSettings.valueD,
      QSettings.setValue, QSettings.clear, QVariant.toString]
  unfold resetAll loadInitial
  simp only [hdark, htheme]

/-- No required colour name contains `graph`. -/
theorem requiredColors_not_graph :
    ∀ name ∈ requiredColors, strContains name "graph" = false := by
  decide

/-- The Default loader writes colour keys only. -/
theorem loadDefaultTheme_get_of_head (c : Configuration) (k : String)
    (h : k.data.head? ≠ some 'c') : (loadDefaultTheme c).s.get k = c.s.get k := by
  simp only [loadDefaultTheme, setColor, QSettings.setValue, ne_colorsKey_of_head h,
    if_false]

/-- The Default loader clears the style sheet and selects the plain logo. -/
theorem loadDefaultTheme_look (c : Configuration) :
    (loadDefaultTheme c).styleSheet = "" ∧
    (loadDefaultTheme c).logoFile = ":/img/cutter_plain.svg" ∧
    (loadDefaultTheme c).env = c.env :=
  ⟨rfl, rfl, rfl⟩

/-- Pushing the saved options changes the engine only. -/
theorem applySavedAsmOptions_frame (c : Configuration) :
    (applySavedAsmOptions c).s = c.s ∧ (applySavedAsmOptions c).env = c.env ∧
    (applySavedAsmOptions c).logoFile = c.logoFile ∧
    (applySavedAsmOptions c).styleSheet = c.styleSheet :=
  applyFold_frame asmOptions c

/-- With the id 0 `setDarkTheme` runs the Default loader. -/
theorem setDarkTheme_zero (c : Configuration) :
    setDarkTheme c 0 =
      { loadDefaultTheme { c with s := c.s.setValue "dark" (.int 0) } with
        signals := (loadDefaultTheme { c with s := c.s.setValue "dark" (.int 0) }).signals
          ++ [.colorsUpdated] } := by
  simp [setDarkTheme]

/-- The store `resetAll` ends with: the cleared store with the id 0, the light
palette and the fallback theme name, and the engine's graph colours mirrored
on top. -/
theorem resetAll_s (c : Configuration) :
    ∃ table, (resetAll c).s =
      mirrorGraphColors
        ((loadDefaultTheme { c with core := (c.core.cmd "e-").setSettings,
                                    s := c.s.clear.setValue "dark" (.int 0) }).s.setValue
          "theme" (.str c.env.fallbackTheme)) table := by
  refine ⟨(setColorTheme (setDarkTheme
    { c with core := (c.core.cmd "e-").setSettings, s := c.s.clear } 0)
    c.env.fallbackTheme).core.colors, ?_⟩
  simp only [resetAll_eq, (applySavedAsmOptions_frame _).1, setColorTheme_s,
    setDarkTheme_zero]

/-- After `resetAll` a key that is no colour key and not `theme` holds what
the cleared store with the id 0 holds. -/
theorem resetAll_get_of_head (c : Configuration) (k : String)
    (h : k.data.head? ≠ some 'c') (ht : k ≠ "theme") :
    (resetAll c).s.get k = if k = "dark" then some (.int 0) else none := by
  obtain ⟨table, hs⟩ := resetAll_s c
  rw [hs, mirrorGraphColors_get_of_head _ _ _ h]
  simp only [QSettings.setValue, ht, if_false]
  rw [loadDefaultTheme_get_of_head _ _ h]
  rfl

/-- After `resetAll` each required colour has the entry the Default loader
wrote. -/
theorem resetAll_get_required (c : Configuration) (name : String)
    (hn : name ∈ requiredColors) :
    (resetAll c).s.get ("colors." ++ name) =
      (loadDefaultTheme { c with core := (c.core.cmd "e-").setSettings,
                                 s := c.s.clear.setValue "dark" (.int 0) }).s.get
        ("colors." ++ name) := by
  obtain ⟨table, hs⟩ := resetAll_s c
  rw [hs, mirrorGraphColors_get_of_not_graph _ _ _ (requiredColors_not_graph name hn)]
  have hne : "colors." ++ name ≠ "theme" :=
    fun heq => ne_colorsKey_of_head (k := "theme") (by decide) name heq.symm
  simp only [QSettings.setValue, hne, if_false]

/-- What `resetAll` leaves of the look: the style sheet and logo of the
Default theme, and the environment as it was. -/
theorem resetAll_look (c : Configuration) :
    (resetAll c).styleSheet = "" ∧
    (resetAll c).logoFile = ":/img/cutter_plain.svg" ∧
    (resetAll c).env = c.env := by
  simp only [resetAll_eq, applySavedAsmOptions_frame, setColorTheme_frame,
    setDarkTheme_zero, loadDefaultTheme_look, and_self]

/-- After `resetAll` no registered option has a store entry. -/
theorem resetAll_get_option (c : Configuration) (key : String) (d : QVariant)
    (hmem : (key, d) ∈ asmOptions) : (resetAll c).s.get key = none := by
  have hk := asmOptions_keys_head (key, d) hmem
  rw [resetAll_get_of_head c key hk.1 hk.2.2.1, if_neg hk.2.1]

/-- The engine `resetAll` ends with is the one the push of the options leaves,
and the push reads the store `resetAll` ends with. -/
theorem resetAll_core (c : Configuration) :
    ∃ loaded : Configuration, loaded.s = (resetAll c).s ∧
      (resetAll c).core =
        (asmOptions.foldl (fun c it =>
          { c with core := c.core.setConfig it.1 (c.s.valueD it.1 it.2) }) loaded).core := by
  refine ⟨setColorTheme (setDarkTheme
    { c with core := (c.core.cmd "e-").setSettings, s := c.s.clear } 0)
    c.env.fallbackTheme, ?_, ?_⟩
  · simp only [resetAll_eq, (applySavedAsmOptions_frame _).1]
  · simp only [resetAll_eq, applySavedAsmOptions]

/-- C9: from every prior state, after `resetAll` no font entry remains, so
`getFont` gives Inconsolata 12; the persisted theme id is 0, the theme name
is the fallback name, and the Default loader's style sheet, logo and light
palette are in place, each required colour with its own entry; and for every
registered option there is no store entry left and the engine holds the
registry default, the last calls the engine received being, in some order,
the pushes of the registry defaults, one for each registered option. -/
theorem resetAll_restores_defaults (c : Configuration) :
    (resetAll c).s.contains "font" = false ∧
    getFont (resetAll c) = ⟨"Inconsolata", 12⟩ ∧
    (resetAll c).s.value "dark" = .int 0 ∧
    (resetAll c).s.value "theme" = .str c.env.fallbackTheme ∧
    (resetAll c).styleSheet = "" ∧
    (resetAll c).logoFile = ":/img/cutter_plain.svg" ∧
    hasAllRequired (resetAll c) = true ∧
    requiredPalette (resetAll c) = lightPalette ∧
    (∀ (key : String) (d : QVariant), (key, d) ∈ asmOptions →
      (resetAll c).s.contains key = false ∧ (resetAll c).core.config key = d) ∧
    (∃ earlier pushed, (resetAll c).core.calls = earlier ++ pushed ∧
      pushed.Perm (asmOptions.map (fun it => CoreCall.setConfig it.1 it.2))) := by
  have hfont : (resetAll c).s.get "font" = none :=
    resetAll_get_of_head c "font" (by decide) (by decide)
  have hdark : (resetAll c).s.get "dark" = some (.int 0) :=
    resetAll_get_of_head c "dark" (by decide) (by decide)
  have hpal := loadDefaultTheme_palette
    { c with core := (c.core.cmd "e-").setSettings, s := c.s.clear.setValue "dark" (.int 0) }
  have hcontains : ∀ name ∈ requiredColors,
      (resetAll c).s.contains ("colors." ++ name) = true := by
    intro name hn
    unfold QSettings.contains
    rw [resetAll_get_required c name hn]
    exact hpal.1 name hn
  have htheme : (resetAll c).s.get "theme" = some (.str c.env.fallbackTheme) := by
    obtain ⟨table, hs⟩ := resetAll_s c
    rw [hs, mirrorGraphColors_get_of_head _ _ "theme" (by decide)]
    simp [QSettings.setValue]
  refine ⟨?_, ?_, ?_, ?_, (resetAll_look c).1, (resetAll_look c).2.1, ?_, ?_, ?_, ?_⟩
  · simp [QSettings.contains, hfont]
  · simp [getFont, QSettings.valueD, hfont, QVariant.toFont]
  · simp [QSettings.value, hdark]
  · simp [QSettings.value, htheme]
  · simpa [hasAllRequired, List.all_eq_true] using hcontains
  · rw [← hpal.2]
    unfold requiredPalette
    apply List.map_congr_left
    intro name hn
    have h1 := hcontains name hn
    have h2 := hpal.1 name hn
    unfold getColor
    rw [h1, h2, if_pos rfl, if_pos rfl]
    unfold QSettings.value
    rw [resetAll_get_required c name hn, (resetAll_look c).2.2]
    rfl
  · intro key d hmem
    have hget := resetAll_get_option c key d hmem
    refine ⟨by simp [QSettings.contains, hget], ?_⟩
    obtain ⟨loaded, hs, hcore⟩ := resetAll_core c
    rw [hcore, applyFold_config_of_mem _ _ asmOptions_nodup key d hmem, hs]
    simp [QSettings.valueD, hget]
  · obtain ⟨loaded, hs, hcore⟩ := resetAll_core c
    refine ⟨loaded.core.calls,
      asmOptions.map (fun it => CoreCall.setConfig it.1 ((resetAll c).s.valueD it.1 it.2)),
      ?_, ?_⟩
    · rw [hcore, applyFold_calls, hs]
    · have hsame :
          asmOptions.map (fun it => CoreCall.setConfig it.1 ((resetAll c).s.valueD it.1 it.2))
            = asmOptions.map (fun it => CoreCall.setConfig it.1 it.2) := by
        apply List.map_congr_left
        intro it hit
        have hget := resetAll_get_option c it.1 it.2 hit
        simp [QSettings.valueD, hget]
      rw [hsame]

/-- C9, a concrete instance: a state with a persisted font, the Dark theme and
an override of `asm.tabs` is back at Inconsolata 12 and at the default 5 in
the engine. -/
theorem resetAll_restores_defaults_witness :
    getFont (resetAll (setConfig (setDarkTheme (setFont exampleConfiguration ⟨"Courier", 9⟩)
      1) "asm.tabs" (.int 9))) = ⟨"Inconsolata", 12⟩ ∧
    (resetAll (setConfig (setDarkTheme (setFont exampleConfiguration ⟨"Courier", 9⟩)
      1) "asm.tabs" (.int 9))).core.config "asm.tabs" = .int 5 :=
  ⟨(resetAll_restores_defaults (setConfig (setDarkTheme
      (setFont exampleConfiguration ⟨"Courier", 9⟩) 1) "asm.tabs" (.int 9))).2.1,
   ((resetAll_restores_defaults (setConfig (setDarkTheme
      (setFont exampleConfiguration ⟨"Courier", 9⟩) 1) "asm.tabs" (.int 9))).2.2.2.2.2.2.2.2.1
      "asm.tabs" (.int 5) (by decide)).2⟩

end Cutter
